import Mathlib

/-!
Verification of the social-icons module (src/social-icons.js).

The module is shallowly embedded: DOM objects and three.js objects are
modelled by the fields of them that the module reads or writes, event
handlers become pure state-transition functions, and the per-frame and
per-event behaviour is explicit state passing over a ModuleState record.
Numbers coming from pointer coordinates, rotations and scales are
rationals; counters and identifiers are naturals.
-/

namespace SocialIcons

/-- A three.js Vector3, restricted to rational coordinates. -/
structure Vec3 where
  x : ℚ
  y : ℚ
  z : ℚ
  deriving DecidableEq, Repr

/-- A three.js Box3: an axis-aligned bounding box given by two corners. -/
structure Box3 where
  min : Vec3
  max : Vec3
  deriving DecidableEq, Repr

/-- Box3.getSize: componentwise max minus min. -/
def Box3.size (b : Box3) : Vec3 :=
  ⟨b.max.x - b.min.x, b.max.y - b.min.y, b.max.z - b.min.z⟩

/-- Box3.getCenter: componentwise midpoint. -/
def Box3.center (b : Box3) : Vec3 :=
  ⟨(b.min.x + b.max.x) / 2, (b.min.y + b.max.y) / 2, (b.min.z + b.max.z) / 2⟩

/-- The loaded gltf.scene object, as far as the module touches it: its
geometry bounding box in local coordinates, the uniform scale set by
model.scale.setScalar, and the translation set by model.position.set. -/
structure Model where
  baseBox : Box3
  scale : ℚ
  position : Vec3
  deriving DecidableEq, Repr

/-- The world-space axis-aligned bounding box that Box3.setFromObject
computes for the model: the base box scaled by the uniform scale and
translated by the position (faithful for the nonnegative scales the
module uses). -/
def Model.worldBox (m : Model) : Box3 :=
  ⟨⟨m.position.x + m.scale * m.baseBox.min.x,
    m.position.y + m.scale * m.baseBox.min.y,
    m.position.z + m.scale * m.baseBox.min.z⟩,
   ⟨m.position.x + m.scale * m.baseBox.max.x,
    m.position.y + m.scale * m.baseBox.max.y,
    m.position.z + m.scale * m.baseBox.max.z⟩⟩

/-- Math.max(size.x, size.y, size.z). -/
def maxDim3 (v : Vec3) : ℚ :=
  max v.x (max v.y v.z)

/-- The THREE.Group created in the load callback: its yaw (rotation.y)
and the model added as its child. -/
structure Pivot where
  rotY : ℚ
  child : Model
  deriving DecidableEq, Repr

/-- Per-icon state: the iconData record of the module, together with the
bits of DOM/scene state attached to the icon that the claims mention.
container, canvas2d, ctx, scene and camera are modelled only through the
fields the module mutates: canvasAttached records that the 2D canvas is
appended to the container, pivotInScene that the pivot group was added to
the scene, resourcesDisposed that geometry/material disposal ran, and
windowListeners is the stashed page-level handler list; each handler
closure is identified by its event name paired with the icon index. -/
structure Icon where
  link : String
  modelPath : String
  index : Nat
  pivot : Option Pivot
  pivotInScene : Bool
  modelLoaded : Bool
  manualRotation : ℚ
  isDragging : Bool
  hasDragged : Bool
  lastX : ℚ
  canvasAttached : Bool
  resourcesDisposed : Bool
  windowListeners : List (String × Nat)
  deriving DecidableEq, Repr

/-- onDragStart: record the start X, enter the dragging state, clear
hasDragged. -/
def onDragStart (icon : Icon) (clientX : ℚ) : Icon :=
  { icon with isDragging := true, hasDragged := false, lastX := clientX }

/-- onDragMove: no-op unless dragging with a loaded pivot; otherwise set
hasDragged when the single-move delta exceeds 2, accumulate the rotation
by deltaX * 0.02 and record the new X. -/
def onDragMove (icon : Icon) (clientX : ℚ) : Icon :=
  if icon.isDragging = false ∨ icon.pivot = none then icon
  else
    let deltaX := clientX - icon.lastX
    { icon with
      hasDragged := if 2 < |deltaX| then true else icon.hasDragged,
      manualRotation := icon.manualRotation + deltaX * (2 / 100),
      lastX := clientX }

/-- onDragEnd: leave the dragging state. -/
def onDragEnd (icon : Icon) : Icon :=
  { icon with isDragging := false }

/-- The click handler: returns the icon (which it never mutates) together
with the window.open call it performs, if any. -/
def onClick (icon : Icon) : Icon × Option (String × String) :=
  if icon.hasDragged = false then (icon, some (icon.link, "_blank"))
  else (icon, none)

/-- A pointer-down at startX followed by pointer-moves at the successive
positions obtained by adding each delta, threading the current pointer
position. Returns the icon and the final pointer position. -/
def runDragMoves : Icon → ℚ → List ℚ → Icon × ℚ
  | icon, x, [] => (icon, x)
  | icon, x, d :: ds => runDragMoves (onDragMove icon (x + d)) (x + d) ds

/-- A full simulated drag: pointer-down at startX, one pointer-move per
delta, then pointer-up. -/
def runDrag (icon : Icon) (startX : ℚ) (deltas : List ℚ) : Icon :=
  onDragEnd (runDragMoves (onDragStart icon startX) startX deltas).1

/-- A concrete icon with a loaded model, used to instantiate theorems. -/
def testIcon : Icon :=
  { link := "https://example.com", modelPath := "icon.glb", index := 0,
    pivot := some ⟨0, ⟨⟨⟨0, 0, 0⟩, ⟨1, 1, 1⟩⟩, 1, ⟨0, 0, 0⟩⟩⟩,
    pivotInScene := true, modelLoaded := true,
    manualRotation := 0, isDragging := false, hasDragged := false, lastX := 0,
    canvasAttached := true, resourcesDisposed := false,
    windowListeners := [("mousemove", 0), ("mouseup", 0), ("touchmove", 0), ("touchend", 0)] }

/-- The cumulative pointer movement of a drag as the claim words it:
total distance travelled since the drag start, i.e. the sum of the
absolute per-move deltas. Stated from the claim text, to be compared
with what the code computes. -/
def specCumulativeMovement (deltas : List ℚ) : ℚ :=
  (deltas.map (fun d => |d|)).sum

/-- A pointer-move while dragging with a loaded pivot takes the else
branch of onDragMove. -/
theorem onDragMove_active (icon : Icon) (clientX : ℚ)
    (h1 : icon.isDragging = true) (h2 : icon.pivot.isSome = true) :
    onDragMove icon clientX =
      { icon with
        hasDragged := icon.hasDragged || decide (2 < |clientX - icon.lastX|),
        manualRotation := icon.manualRotation + (clientX - icon.lastX) * (2 / 100),
        lastX := clientX } := by
  have hno : ¬(icon.isDragging = false ∨ icon.pivot = none) := by
    rw [h1]
    rintro (h | h)
    · exact absurd h (by simp)
    · rw [h] at h2; exact absurd h2 (by simp)
  rw [onDragMove, if_neg hno]
  by_cases hd : 2 < |clientX - icon.lastX|
  · simp [hd]
  · simp [hd]

/-- Over a sequence of moves of a dragging icon with a loaded pivot,
hasDragged ends up true exactly when it started true or some single
per-move delta exceeds 2 in absolute value. -/
theorem runDragMoves_hasDragged :
    ∀ (ds : List ℚ) (icon : Icon) (x : ℚ),
      icon.isDragging = true → icon.pivot.isSome = true → icon.lastX = x →
      (runDragMoves icon x ds).1.hasDragged =
        (icon.hasDragged || ds.any fun d => decide (2 < |d|)) := by
  intro ds
  induction ds with
  | nil =>
    intro icon x _ _ _
    simp [runDragMoves]
  | cons d ds ih =>
    intro icon x h1 h2 h3
    rw [runDragMoves, onDragMove_active icon (x + d) h1 h2]
    rw [ih _ (x + d) (by simpa using h1) (by simpa using h2) rfl]
    simp [h3, List.any_cons, Bool.or_assoc]

/-- C1, counterexample: the claimed "if and only if the cumulative
movement since the drag start exceeds 2 pixels" fails on the code. Two
successive moves of +2px each give a cumulative movement of 4px (both as
total distance and as net displacement), yet hasDragged stays false,
because onDragMove compares each single-move delta against 2, never the
accumulated movement. -/
theorem C1_counterexample :
    2 < specCumulativeMovement [2, 2] ∧
    2 < |(0 : ℚ) + 2 + 2 - 0| ∧
    (runDrag testIcon 0 [2, 2]).hasDragged = false := by
  refine ⟨by norm_num [specCumulativeMovement], by norm_num, ?_⟩
  norm_num [runDrag, runDragMoves, onDragMove, onDragStart, onDragEnd, testIcon,
    Option.some_ne_none]

/-- C1, amended: during a drag on an icon whose model is loaded,
hasDragged becomes true if and only if some single pointer-move delta
since the previous pointer event exceeds 2 pixels in absolute value; in
particular a drag of +10px then -15px sets it and a drag of 1px does
not. -/
theorem C1_theorem (icon : Icon) (startX : ℚ) (deltas : List ℚ)
    (hp : icon.pivot.isSome = true) :
    (runDrag icon startX deltas).hasDragged = true ↔ ∃ d ∈ deltas, 2 < |d| := by
  rw [runDrag]
  have hend : ∀ j : Icon, (onDragEnd j).hasDragged = j.hasDragged := fun j => rfl
  rw [hend]
  rw [runDragMoves_hasDragged deltas (onDragStart icon startX) startX rfl
    (by simpa [onDragStart] using hp) rfl]
  simp [onDragStart, List.any_eq_true]

/-- C1 witness: the two simulated drags named by the claim, evaluated on
a concrete loaded icon. -/
theorem C1_witness :
    (runDrag testIcon 0 [10, -15]).hasDragged = true ∧
    (runDrag testIcon 0 [1]).hasDragged = false := by
  constructor
  · exact (C1_theorem testIcon 0 [10, -15] rfl).mpr ⟨10, by norm_num, by norm_num⟩
  · rw [Bool.eq_false_iff]
    intro hT
    obtain ⟨d, hd, hlt⟩ := (C1_theorem testIcon 0 [1] rfl).mp hT
    rw [List.mem_singleton] at hd
    rw [hd] at hlt
    norm_num at hlt

/-- C3: on a click the navigation link is opened in a new browsing
context ("_blank" target) if and only if hasDragged is false at that
moment; when hasDragged is true nothing is opened, and in either case
the handler changes no icon state. -/
theorem C3_theorem (icon : Icon) :
    ((onClick icon).2 = some (icon.link, "_blank") ↔ icon.hasDragged = false) ∧
    (onClick icon).1 = icon ∧
    (icon.hasDragged = true → (onClick icon).2 = none) := by
  cases hc : icon.hasDragged <;> simp [onClick, hc]

/-- C3 witness: a click on the concrete non-dragged icon opens its link. -/
theorem C3_witness :
    (onClick testIcon).2 = some ("https://example.com", "_blank") :=
  ((C3_theorem testIcon).1).mpr rfl

/-- A pointer-move on an icon whose pivot is still null takes the early
return of onDragMove. -/
theorem onDragMove_unloaded (icon : Icon) (clientX : ℚ) (h : icon.pivot = none) :
    onDragMove icon clientX = icon := by
  rw [onDragMove, if_pos (Or.inr h)]

/-- Any sequence of pointer-moves on an icon whose pivot is still null
leaves the icon untouched. -/
theorem runDragMoves_unloaded :
    ∀ (ds : List ℚ) (icon : Icon) (x : ℚ), icon.pivot = none →
      (runDragMoves icon x ds).1 = icon := by
  intro ds
  induction ds with
  | nil => intro icon x _; rfl
  | cons d ds ih =>
    intro icon x h
    rw [runDragMoves, onDragMove_unloaded _ _ h]
    exact ih _ _ h

/-- A concrete icon whose model has not loaded, used to instantiate
theorems. -/
def unloadedIcon : Icon :=
  { link := "https://example.org", modelPath := "icon2.glb", index := 1,
    pivot := none, pivotInScene := false, modelLoaded := false,
    manualRotation := 0, isDragging := false, hasDragged := false, lastX := 0,
    canvasAttached := true, resourcesDisposed := false,
    windowListeners := [("mousemove", 1), ("mouseup", 1), ("touchmove", 1), ("touchend", 1)] }

/-- C10: while the model has not loaded (pivot is null), every
pointer-move during a drag is a complete no-op, so a whole simulated
drag only toggles isDragging and records the start X: hasDragged stays
false, manualRotation is unchanged, and a subsequent click still opens
the link in a new browsing context. -/
theorem C10_theorem (icon : Icon) (h : icon.pivot = none) :
    (∀ clientX, onDragMove icon clientX = icon) ∧
    (∀ (startX : ℚ) (deltas : List ℚ),
      (runDrag icon startX deltas).hasDragged = false ∧
      (runDrag icon startX deltas).manualRotation = icon.manualRotation ∧
      (runDrag icon startX deltas).lastX = startX ∧
      (onClick (runDrag icon startX deltas)).2 = some (icon.link, "_blank")) := by
  refine ⟨fun clientX => onDragMove_unloaded icon clientX h, fun startX deltas => ?_⟩
  have hrun : runDrag icon startX deltas = onDragEnd (onDragStart icon startX) := by
    rw [runDrag, runDragMoves_unloaded deltas _ startX (by simpa [onDragStart] using h)]
  rw [hrun]
  exact ⟨rfl, rfl, rfl, by simp [onClick, onDragEnd, onDragStart]⟩

/-- C10 witness: a long drag on the concrete unloaded icon, after which
the click still navigates. -/
theorem C10_witness :
    (runDrag unloadedIcon 0 [100, -250, 3]).hasDragged = false ∧
    (onClick (runDrag unloadedIcon 0 [100, -250, 3])).2 =
      some ("https://example.org", "_blank") :=
  ⟨((C10_theorem unloadedIcon rfl).2 0 [100, -250, 3]).1,
   ((C10_theorem unloadedIcon rfl).2 0 [100, -250, 3]).2.2.2⟩

/-- A THREE.WebGLRenderer, restricted to what the module configures on
it: the constructor options, setSize and setPixelRatio. -/
structure Renderer where
  width : Nat
  height : Nat
  pixelRatioVal : ℚ
  antialias : Bool
  alpha : Bool
  deriving DecidableEq, Repr

/-- The closure state of initSocialIcons: the module-level mutable
variables, the icon list, and the observable effects the claims talk
about. pixelRatioVal is the pixelRatio constant computed once at
initialization; rendererConstructions counts WebGLRenderer constructor
calls; loadRequests records the gltfLoader.load calls in order;
nextFrameId/pendingFrames model requestAnimationFrame handles (a fresh
id per request, pending until fired or cancelled); renderLog records,
per rendered-and-blitted icon, its index; windowListeners is the
multiset of page-level listeners currently registered on window. -/
structure ModuleState where
  pixelRatioVal : ℚ
  icons : List Icon
  sharedRenderer : Option Renderer
  rendererConstructions : Nat
  modelsRequested : Bool
  loadRequests : List String
  isAnimating : Bool
  animFrameId : Option Nat
  nextFrameId : Nat
  pendingFrames : List Nat
  renderLog : List Nat
  windowListeners : List (String × Nat)
  observerConnected : Bool
  deriving DecidableEq, Repr

/-- The renderer the first getSharedRenderer call constructs: antialias
and alpha options, setSize(RENDER_SIZE, RENDER_SIZE) with
RENDER_SIZE = 80, setPixelRatio(pixelRatio). -/
def mkRenderer (s : ModuleState) : Renderer :=
  { width := 80, height := 80, pixelRatioVal := s.pixelRatioVal,
    antialias := true, alpha := true }

/-- getSharedRenderer: construct the shared renderer on the first call,
return the existing one afterwards. -/
def getSharedRenderer (s : ModuleState) : Renderer × ModuleState :=
  match s.sharedRenderer with
  | some r => (r, s)
  | none =>
    (mkRenderer s,
     { s with
       sharedRenderer := some (mkRenderer s),
       rendererConstructions := s.rendererConstructions + 1 })

/-- loadModels: a no-op once modelsRequested is set; the first call sets
the flag and issues one gltfLoader.load per icon, in icon order. -/
def loadModels (s : ModuleState) : ModuleState :=
  if s.modelsRequested = true then s
  else
    { s with
      modelsRequested := true,
      loadRequests := s.loadRequests ++ s.icons.map Icon.modelPath }

/-- n successive invocations of loadModels. -/
def loadModelsN : Nat → ModuleState → ModuleState
  | 0, s => s
  | n + 1, s => loadModelsN n (loadModels s)

/-- The fit-to-size scale the load callback computes: 1.8 divided by the
largest dimension of the bounding box of the freshly loaded model. -/
def fitScale (m : Model) : ℚ :=
  18 / 10 / maxDim3 m.worldBox.size

/-- The load callback transform of the model: scale.setScalar(fitScale),
then recompute the bounding box and translate by minus its center. -/
def loadedModel (m : Model) : Model :=
  let model1 := { m with scale := fitScale m }
  let center := model1.worldBox.center
  { model1 with position := ⟨-center.x, -center.y, -center.z⟩ }

/-- The gltfLoader.load success callback for one icon: normalize the
model, wrap it in a fresh pivot group (yaw 0) added to the icon scene,
and mark the model loaded. -/
def onGltfLoad (icon : Icon) (m : Model) : Icon :=
  { icon with
    pivot := some ⟨0, loadedModel m⟩,
    pivotInScene := true,
    modelLoaded := true }

/-- The per-icon body of the animate loop: skip icons with no loaded
model; otherwise set the pivot yaw from manualRotation while dragging,
or overwrite manualRotation with time + index * 0.5 and apply it, then
render and blit (the returned Bool). -/
def frameIcon (time : ℚ) (icon : Icon) : Icon × Bool :=
  if icon.modelLoaded = false then (icon, false)
  else if icon.isDragging = true then
    ({ icon with
       pivot := icon.pivot.map fun p => { p with rotY := icon.manualRotation } },
     true)
  else
    ({ icon with
       manualRotation := time + (icon.index : ℚ) * (1 / 2),
       pivot := icon.pivot.map fun p =>
         { p with rotY := time + (icon.index : ℚ) * (1 / 2) } },
     true)

/-- requestAnimationFrame: hand out a fresh id, record it as the pending
frame callback and as animFrameId. -/
def scheduleFrame (s : ModuleState) : ModuleState :=
  { s with
    animFrameId := some s.nextFrameId,
    pendingFrames := s.pendingFrames ++ [s.nextFrameId],
    nextFrameId := s.nextFrameId + 1 }

/-- One run of animate at the given time: return at once when not
animating, otherwise schedule the next frame, fetch the shared renderer,
and run the per-icon rotate/render/blit body over all icons, logging the
index of every icon that was rendered and blitted. -/
def animateStep (time : ℚ) (s : ModuleState) : ModuleState :=
  if s.isAnimating = false then s
  else
    let s1 := (getSharedRenderer (scheduleFrame s)).2
    let results := s1.icons.map (frameIcon time)
    { s1 with
      icons := results.map Prod.fst,
      renderLog := s1.renderLog ++ (results.filter Prod.snd).map fun r => r.1.index }

/-- startAnimating: a no-op while already animating; otherwise raise the
flag, trigger loadModels, and run animate once. -/
def startAnimating (time : ℚ) (s : ModuleState) : ModuleState :=
  if s.isAnimating = true then s
  else animateStep time (loadModels { s with isAnimating := true })

/-- stopAnimating: lower the flag and cancel the pending frame callback,
if any. -/
def stopAnimating (s : ModuleState) : ModuleState :=
  let s1 := { s with isAnimating := false }
  match s1.animFrameId with
  | some fid =>
    { s1 with pendingFrames := s1.pendingFrames.erase fid, animFrameId := none }
  | none => s1

/-- One IntersectionObserver entry for the footer: startAnimating when
it intersects, stopAnimating when it does not. -/
def visibilityEvent (time : ℚ) (isIntersecting : Bool) (s : ModuleState) : ModuleState :=
  if isIntersecting = true then startAnimating time s else stopAnimating s

/-- The browser firing a previously requested animation frame: a no-op
for a cancelled (non-pending) id, otherwise consume the id and run
animate. -/
def fireFrame (time : ℚ) (fid : Nat) (s : ModuleState) : ModuleState :=
  if s.pendingFrames.contains fid then
    animateStep time { s with pendingFrames := s.pendingFrames.erase fid }
  else s

/-- dispose: stop the loop, disconnect the observer, remove every
stashed page-level listener from window, dispose every icon scene and
remove its canvas from the DOM, and dispose the shared renderer. -/
def dispose (s : ModuleState) : ModuleState :=
  let s1 := stopAnimating s
  let s2 := { s1 with observerConnected := false }
  let s3 :=
    { s2 with
      windowListeners :=
        s2.icons.foldl
          (fun (acc : List (String × Nat)) (icon : Icon) =>
            icon.windowListeners.foldl (fun a w => a.erase w) acc)
          s2.windowListeners }
  let s4 :=
    { s3 with
      icons := s3.icons.map fun (icon : Icon) =>
        { icon with resourcesDisposed := true, canvasAttached := false } }
  if s4.sharedRenderer.isSome then { s4 with sharedRenderer := none } else s4

/-- One matched .social-icon-container element: its data-model and
data-link attributes. -/
structure ContainerInput where
  model : String
  link : String
  deriving DecidableEq, Repr

/-- The page as initSocialIcons reads it: the matched container list and
whether the closest footer ancestor, or the fallback element looked up
by id, exists. -/
structure PageInput where
  containers : List ContainerInput
  footerFound : Bool
  deriving DecidableEq, Repr

/-- Per-container initialization: create and append the 2D canvas, build
the scene and camera, and fill the fresh iconData record; the four
page-level move/up handlers are stashed for later cleanup. -/
def mkIcon (idx : Nat) (c : ContainerInput) : Icon :=
  { link := c.link, modelPath := c.model, index := idx,
    pivot := none, pivotInScene := false, modelLoaded := false,
    manualRotation := 0, isDragging := false, hasDragged := false, lastX := 0,
    canvasAttached := true, resourcesDisposed := false,
    windowListeners :=
      [("mousemove", idx), ("mouseup", idx), ("touchmove", idx), ("touchend", idx)] }

/-- The forEach over containers, carrying the running index. -/
def mkIcons : Nat → List ContainerInput → List Icon
  | _, [] => []
  | idx, c :: cs => mkIcon idx c :: mkIcons (idx + 1) cs

/-- initSocialIcons: return none (undefined) before touching anything
when no container matched or no footer/fallback ancestor exists;
otherwise build the full module state: icons created with their canvases
appended, page-level listeners registered, observer observing, loop
stopped, renderer not yet constructed, models not yet requested. -/
def initSocialIcons (dpr : ℚ) (input : PageInput) : Option ModuleState :=
  if input.containers.length = 0 then none
  else if input.footerFound = false then none
  else
    let icons := mkIcons 0 input.containers
    some
      { pixelRatioVal := min dpr 2,
        icons := icons,
        sharedRenderer := none,
        rendererConstructions := 0,
        modelsRequested := false,
        loadRequests := [],
        isAnimating := false,
        animFrameId := none,
        nextFrameId := 0,
        pendingFrames := [],
        renderLog := [],
        windowListeners := (icons.map Icon.windowListeners).flatten,
        observerConnected := true }

/-- C9: with zero matching containers, or with no footer/fallback
visibility-gate ancestor, initSocialIcons returns none at once: no icon
record or canvas is built, no renderer exists, no load was requested, no
observer and no listener is registered (in this embedding all of these
live only in the returned state). -/
theorem C9_theorem (dpr : ℚ) (input : PageInput)
    (h : input.containers.length = 0 ∨ input.footerFound = false) :
    initSocialIcons dpr input = none := by
  rcases h with h | h
  · rw [initSocialIcons, if_pos h]
  · rw [initSocialIcons]
    by_cases h0 : input.containers.length = 0
    · rw [if_pos h0]
    · rw [if_neg h0, if_pos h]

/-- C9 witness: the empty page and the footerless page. -/
theorem C9_witness :
    initSocialIcons 2 ⟨[], true⟩ = none ∧
    initSocialIcons 2 ⟨[⟨"icon.glb", "https://example.com"⟩], false⟩ = none :=
  ⟨C9_theorem 2 ⟨[], true⟩ (Or.inl rfl),
   C9_theorem 2 ⟨[⟨"icon.glb", "https://example.com"⟩], false⟩ (Or.inr rfl)⟩

/-- loadModels is the identity once the one-shot flag is set. -/
theorem loadModels_requested (s : ModuleState) (h : s.modelsRequested = true) :
    loadModels s = s := by
  rw [loadModels, if_pos h]

/-- loadModels always leaves the one-shot flag set. -/
theorem loadModels_flag (s : ModuleState) : (loadModels s).modelsRequested = true := by
  rw [loadModels]
  split
  · assumption
  · rfl

/-- Iterating loadModels from a state with the flag set does nothing. -/
theorem loadModelsN_requested (n : Nat) :
    ∀ s : ModuleState, s.modelsRequested = true → loadModelsN n s = s := by
  induction n with
  | zero => intro s _; rfl
  | succ n ih =>
    intro s h
    rw [loadModelsN, loadModels_requested s h]
    exact ih s h

/-- C2: loadModels is idempotent. From the initial state (flag down, no
request issued yet), any positive number of invocations equals a single
one, and that single call raises the one-shot flag and issues exactly
one load request per icon, in icon order. -/
theorem C2_theorem (s : ModuleState) (n : Nat)
    (h0 : s.modelsRequested = false) (h1 : s.loadRequests = []) :
    loadModelsN (n + 1) s = loadModels s ∧
    (loadModels s).loadRequests = s.icons.map Icon.modelPath ∧
    (loadModels s).modelsRequested = true := by
  refine ⟨?_, ?_, loadModels_flag s⟩
  · rw [loadModelsN]
    exact loadModelsN_requested n (loadModels s) (loadModels_flag s)
  · rw [loadModels, if_neg (by rw [h0]; simp), h1]
    simp

/-- C2 witness: three invocations on a concrete freshly initialized
two-icon state issue exactly the two load requests of the first call. -/
theorem C2_witness :
    ∃ ms : ModuleState,
      initSocialIcons 2 ⟨[⟨"a.glb", "https://a"⟩, ⟨"b.glb", "https://b"⟩], true⟩ = some ms ∧
      loadModelsN 3 ms = loadModels ms ∧
      (loadModels ms).loadRequests = ["a.glb", "b.glb"] := by
  refine ⟨_, rfl, ?_, ?_⟩
  · exact (C2_theorem _ 2 rfl rfl).1
  · rw [(C2_theorem _ 2 rfl rfl).2.1]
    rfl

/-- n successive calls of getSharedRenderer, collecting each returned
renderer. -/
def getSharedRendererN : Nat → ModuleState → List Renderer × ModuleState
  | 0, s => ([], s)
  | n + 1, s =>
    let rs := getSharedRenderer s
    let rest := getSharedRendererN n rs.2
    (rs.1 :: rest.1, rest.2)

/-- Once constructed, getSharedRenderer returns the stored renderer and
leaves the state alone. -/
theorem getSharedRenderer_some (s : ModuleState) (r : Renderer)
    (h : s.sharedRenderer = some r) : getSharedRenderer s = (r, s) := by
  simp [getSharedRenderer, h]

/-- Once constructed, every further call returns the same renderer. -/
theorem getSharedRendererN_some (n : Nat) (s : ModuleState) (r : Renderer)
    (h : s.sharedRenderer = some r) :
    getSharedRendererN n s = (List.replicate n r, s) := by
  induction n with
  | zero => rfl
  | succ n ih =>
    simp [getSharedRendererN, getSharedRenderer_some s r h, ih, List.replicate_succ]

/-- C7: getSharedRenderer is a singleton accessor. From the initial
state (no renderer, zero constructions), n calls return the identical
renderer n times and construct at most once (exactly once when n is at
least 1); the renderer is the fixed 80 by 80 square carrying the module
pixel ratio, and initialization sets that ratio to
min(devicePixelRatio, 2). -/
theorem C7_theorem (s : ModuleState) (n : Nat)
    (h0 : s.sharedRenderer = none) (hc : s.rendererConstructions = 0) :
    (getSharedRendererN n s).1 = List.replicate n (mkRenderer s) ∧
    (getSharedRendererN n s).2.rendererConstructions = min n 1 ∧
    (mkRenderer s).width = 80 ∧ (mkRenderer s).height = 80 ∧
    (mkRenderer s).pixelRatioVal = s.pixelRatioVal ∧
    (∀ (dpr : ℚ) (input : PageInput) (ms : ModuleState),
      initSocialIcons dpr input = some ms → ms.pixelRatioVal = min dpr 2) := by
  have hinit : ∀ (dpr : ℚ) (input : PageInput) (ms : ModuleState),
      initSocialIcons dpr input = some ms → ms.pixelRatioVal = min dpr 2 := by
    intro dpr input ms h
    rw [initSocialIcons] at h
    split at h
    · exact absurd h (by simp)
    · split at h
      · exact absurd h (by simp)
      · obtain rfl := (Option.some.inj h).symm
        rfl
  cases n with
  | zero => exact ⟨rfl, by simpa using hc, rfl, rfl, rfl, hinit⟩
  | succ n =>
    have hfirst : getSharedRenderer s =
        (mkRenderer s,
         { s with
           sharedRenderer := some (mkRenderer s),
           rendererConstructions := s.rendererConstructions + 1 }) := by
      simp [getSharedRenderer, h0]
    refine ⟨?_, ?_, rfl, rfl, rfl, hinit⟩
    · rw [getSharedRendererN, hfirst]
      rw [getSharedRendererN_some n _ (mkRenderer s) rfl]
      simp [List.replicate_succ]
    · rw [getSharedRendererN, hfirst]
      rw [getSharedRendererN_some n _ (mkRenderer s) rfl]
      simp [hc]

/-- The state initSocialIcons builds for one concrete container under
devicePixelRatio 3 (so the capped ratio is 2). -/
def rendererTestState : ModuleState :=
  { pixelRatioVal := 2,
    icons := mkIcons 0 [⟨"a.glb", "https://a"⟩],
    sharedRenderer := none,
    rendererConstructions := 0,
    modelsRequested := false,
    loadRequests := [],
    isAnimating := false,
    animFrameId := none,
    nextFrameId := 0,
    pendingFrames := [],
    renderLog := [],
    windowListeners :=
      ((mkIcons 0 [⟨"a.glb", "https://a"⟩]).map Icon.windowListeners).flatten,
    observerConnected := true }

/-- C7 witness: two calls on the concrete freshly initialized state with
devicePixelRatio 3 (capped to 2) return the same 80 by 80 renderer and
construct exactly once. -/
theorem C7_witness :
    initSocialIcons 3 ⟨[⟨"a.glb", "https://a"⟩], true⟩ = some rendererTestState ∧
    (getSharedRendererN 2 rendererTestState).1 =
      [mkRenderer rendererTestState, mkRenderer rendererTestState] ∧
    (getSharedRendererN 2 rendererTestState).2.rendererConstructions = 1 ∧
    (mkRenderer rendererTestState).width = 80 ∧
    rendererTestState.pixelRatioVal = 2 := by
  obtain ⟨h1, h2, h3, -, -, -⟩ := C7_theorem rendererTestState 2 rfl rfl
  refine ⟨?_, ?_, ?_, h3, rfl⟩
  · rw [initSocialIcons, if_neg (by simp), if_neg (by simp)]
    rw [Option.some_inj]
    rw [show min (3 : ℚ) 2 = 2 by norm_num]
    rfl
  · rw [h1]
    rfl
  · rw [h2]
    decide

/-- An unloaded icon is skipped by the frame body. -/
theorem frameIcon_unloaded (t : ℚ) (icon : Icon) (h : icon.modelLoaded = false) :
    frameIcon t icon = (icon, false) := by
  rw [frameIcon, if_pos h]

/-- A loaded, dragging icon gets its pivot yaw from manualRotation. -/
theorem frameIcon_dragging (t : ℚ) (icon : Icon)
    (h1 : icon.modelLoaded = true) (h2 : icon.isDragging = true) :
    frameIcon t icon =
      ({ icon with
         pivot := icon.pivot.map fun p => { p with rotY := icon.manualRotation } },
       true) := by
  rw [frameIcon, if_neg (by rw [h1]; simp), if_pos h2]

/-- A loaded, non-dragging icon has manualRotation overwritten with the
staggered time value, applied as the pivot yaw. -/
theorem frameIcon_auto (t : ℚ) (icon : Icon)
    (h1 : icon.modelLoaded = true) (h2 : icon.isDragging = false) :
    frameIcon t icon =
      ({ icon with
         manualRotation := t + (icon.index : ℚ) * (1 / 2),
         pivot := icon.pivot.map fun p =>
           { p with rotY := t + (icon.index : ℚ) * (1 / 2) } },
       true) := by
  rw [frameIcon, if_neg (by rw [h1]; simp), if_neg (by rw [h2]; simp)]

/-- The frame body renders and blits an icon exactly when its model is
loaded. -/
theorem frameIcon_rendered (t : ℚ) (icon : Icon) :
    (frameIcon t icon).2 = icon.modelLoaded := by
  cases hml : icon.modelLoaded
  · rw [frameIcon_unloaded t icon hml]
  · cases hdr : icon.isDragging
    · rw [frameIcon_auto t icon hml hdr]
    · rw [frameIcon_dragging t icon hml hdr]

/-- The frame body never changes the icon index. -/
theorem frameIcon_index (t : ℚ) (icon : Icon) :
    (frameIcon t icon).1.index = icon.index := by
  cases hml : icon.modelLoaded
  · rw [frameIcon_unloaded t icon hml]
  · cases hdr : icon.isDragging
    · rw [frameIcon_auto t icon hml hdr]
    · rw [frameIcon_dragging t icon hml hdr]

/-- The frame body never changes the modelLoaded flag. -/
theorem frameIcon_modelLoaded (t : ℚ) (icon : Icon) :
    (frameIcon t icon).1.modelLoaded = icon.modelLoaded := by
  cases hml : icon.modelLoaded
  · rw [frameIcon_unloaded t icon hml]; exact hml
  · cases hdr : icon.isDragging
    · rw [frameIcon_auto t icon hml hdr]; exact hml
    · rw [frameIcon_dragging t icon hml hdr]; exact hml

/-- The indices logged by one animate run are exactly the indices of the
loaded icons, in order. -/
theorem animate_renderLog (t : ℚ) (l : List Icon) :
    ((l.map (frameIcon t)).filter Prod.snd).map (fun r => r.1.index) =
      (l.filter fun ic => ic.modelLoaded).map Icon.index := by
  induction l with
  | nil => rfl
  | cons ic l ih =>
    cases hml : ic.modelLoaded <;>
      simp [List.filter_cons, frameIcon_rendered, hml, frameIcon_index, ih]

/-- getSharedRenderer touches only the renderer fields. -/
theorem getSharedRenderer_icons (s : ModuleState) :
    (getSharedRenderer s).2.icons = s.icons := by
  cases h : s.sharedRenderer <;> simp [getSharedRenderer, h]

/-- getSharedRenderer touches only the renderer fields. -/
theorem getSharedRenderer_renderLog (s : ModuleState) :
    (getSharedRenderer s).2.renderLog = s.renderLog := by
  cases h : s.sharedRenderer <;> simp [getSharedRenderer, h]

/-- getSharedRenderer touches only the renderer fields. -/
theorem getSharedRenderer_pendingFrames (s : ModuleState) :
    (getSharedRenderer s).2.pendingFrames = s.pendingFrames := by
  cases h : s.sharedRenderer <;> simp [getSharedRenderer, h]

/-- getSharedRenderer touches only the renderer fields. -/
theorem getSharedRenderer_modelsRequested (s : ModuleState) :
    (getSharedRenderer s).2.modelsRequested = s.modelsRequested := by
  cases h : s.sharedRenderer <;> simp [getSharedRenderer, h]

/-- One animate run while animating: every icon goes through the frame
body, and the indices of the loaded icons are appended to the
render/blit log. -/
theorem animateStep_run (t : ℚ) (s : ModuleState) (h : s.isAnimating = true) :
    (animateStep t s).icons = s.icons.map (fun ic => (frameIcon t ic).1) ∧
    (animateStep t s).renderLog =
      s.renderLog ++ (s.icons.filter fun ic => ic.modelLoaded).map Icon.index := by
  rw [animateStep, if_neg (by rw [h]; simp)]
  refine ⟨?_, ?_⟩
  · show ((getSharedRenderer (scheduleFrame s)).2.icons.map (frameIcon t)).map Prod.fst = _
    rw [getSharedRenderer_icons]
    show (s.icons.map (frameIcon t)).map Prod.fst = _
    rw [List.map_map]
    rfl
  · show (getSharedRenderer (scheduleFrame s)).2.renderLog ++
      (((getSharedRenderer (scheduleFrame s)).2.icons.map (frameIcon t)).filter
        Prod.snd).map (fun r => r.1.index) = _
    rw [getSharedRenderer_icons, getSharedRenderer_renderLog]
    show s.renderLog ++ _ = _
    rw [animate_renderLog]
    rfl

/-- C6: on each animation frame, icons whose model is not loaded are
skipped entirely (no state change, no render, no blit); a loaded icon
that is Dragging gets its pivot yaw set to manualRotation; a loaded icon
that is not Dragging has manualRotation overwritten with
currentTimeSeconds + index * 0.5, applied as the pivot yaw; and the
animate run maps this body over every icon and renders-and-blits exactly
the loaded ones, in order. -/
theorem C6_theorem (t : ℚ) :
    (∀ icon : Icon, icon.modelLoaded = false → frameIcon t icon = (icon, false)) ∧
    (∀ icon : Icon, icon.modelLoaded = true → icon.isDragging = true →
      frameIcon t icon =
        ({ icon with
           pivot := icon.pivot.map fun p => { p with rotY := icon.manualRotation } },
         true)) ∧
    (∀ icon : Icon, icon.modelLoaded = true → icon.isDragging = false →
      frameIcon t icon =
        ({ icon with
           manualRotation := t + (icon.index : ℚ) * (1 / 2),
           pivot := icon.pivot.map fun p =>
             { p with rotY := t + (icon.index : ℚ) * (1 / 2) } },
         true)) ∧
    (∀ s : ModuleState, s.isAnimating = true →
      (animateStep t s).icons = s.icons.map (fun ic => (frameIcon t ic).1) ∧
      (animateStep t s).renderLog =
        s.renderLog ++ (s.icons.filter fun ic => ic.modelLoaded).map Icon.index) :=
  ⟨fun icon h => frameIcon_unloaded t icon h,
   fun icon h1 h2 => frameIcon_dragging t icon h1 h2,
   fun icon h1 h2 => frameIcon_auto t icon h1 h2,
   fun s h => animateStep_run t s h⟩

/-- A concrete loaded icon frozen mid-drag. -/
def draggingIcon : Icon :=
  { testIcon with isDragging := true, manualRotation := 7 }

/-- C6 witness: the three frame-body cases at time 4 on concrete icons. -/
theorem C6_witness :
    frameIcon 4 unloadedIcon = (unloadedIcon, false) ∧
    frameIcon 4 draggingIcon =
      ({ draggingIcon with
         pivot := draggingIcon.pivot.map fun p => { p with rotY := 7 } }, true) ∧
    frameIcon 4 testIcon =
      ({ testIcon with
         manualRotation := 4,
         pivot := testIcon.pivot.map fun p => { p with rotY := 4 } }, true) := by
  obtain ⟨h1, h2, h3, -⟩ := C6_theorem 4
  refine ⟨h1 unloadedIcon rfl, ?_, ?_⟩
  · rw [h2 draggingIcon rfl rfl]
    rfl
  · rw [h3 testIcon rfl rfl]
    norm_num [testIcon]

/-- loadModels never touches the icon list. -/
theorem loadModels_icons (s : ModuleState) : (loadModels s).icons = s.icons := by
  rw [loadModels]; split <;> rfl

/-- loadModels never touches the animation flag. -/
theorem loadModels_isAnimating (s : ModuleState) :
    (loadModels s).isAnimating = s.isAnimating := by
  rw [loadModels]; split <;> rfl

/-- loadModels never touches the pending frames. -/
theorem loadModels_pendingFrames (s : ModuleState) :
    (loadModels s).pendingFrames = s.pendingFrames := by
  rw [loadModels]; split <;> rfl

/-- loadModels never touches the frame id counter. -/
theorem loadModels_nextFrameId (s : ModuleState) :
    (loadModels s).nextFrameId = s.nextFrameId := by
  rw [loadModels]; split <;> rfl

/-- getSharedRenderer touches only the renderer fields. -/
theorem getSharedRenderer_isAnimating (s : ModuleState) :
    (getSharedRenderer s).2.isAnimating = s.isAnimating := by
  cases h : s.sharedRenderer <;> simp [getSharedRenderer, h]

/-- animate is a no-op while the flag is down. -/
theorem animateStep_not (t : ℚ) (s : ModuleState) (h : s.isAnimating = false) :
    animateStep t s = s := by
  rw [animateStep, if_pos h]

/-- animate never changes the animation flag. -/
theorem animateStep_isAnimating (t : ℚ) (s : ModuleState) :
    (animateStep t s).isAnimating = s.isAnimating := by
  rw [animateStep]
  split
  · rfl
  · show (getSharedRenderer (scheduleFrame s)).2.isAnimating = _
    rw [getSharedRenderer_isAnimating]
    rfl

/-- animate never changes the one-shot load flag. -/
theorem animateStep_modelsRequested (t : ℚ) (s : ModuleState) :
    (animateStep t s).modelsRequested = s.modelsRequested := by
  rw [animateStep]
  split
  · rfl
  · show (getSharedRenderer (scheduleFrame s)).2.modelsRequested = _
    rw [getSharedRenderer_modelsRequested]
    rfl

/-- A running animate schedules exactly one new frame callback. -/
theorem animateStep_pendingFrames (t : ℚ) (s : ModuleState) (h : s.isAnimating = true) :
    (animateStep t s).pendingFrames = s.pendingFrames ++ [s.nextFrameId] := by
  rw [animateStep, if_neg (by rw [h]; simp)]
  show (getSharedRenderer (scheduleFrame s)).2.pendingFrames = _
  rw [getSharedRenderer_pendingFrames]
  rfl

/-- animate leaves every modelLoaded flag as it was. -/
theorem animateStep_modelLoadedMap (t : ℚ) (s : ModuleState) :
    (animateStep t s).icons.map Icon.modelLoaded = s.icons.map Icon.modelLoaded := by
  by_cases h : s.isAnimating = false
  · rw [animateStep_not t s h]
  · have h1 := (animateStep_run t s (by revert h; cases s.isAnimating <;> simp)).1
    rw [h1, List.map_map]
    exact List.map_congr_left fun ic _ => frameIcon_modelLoaded t ic

/-- stopAnimating leaves every icon untouched. -/
theorem stopAnimating_icons (s : ModuleState) : (stopAnimating s).icons = s.icons := by
  cases h : s.animFrameId <;> simp [stopAnimating, h]

/-- stopAnimating leaves the render/blit log untouched. -/
theorem stopAnimating_renderLog (s : ModuleState) :
    (stopAnimating s).renderLog = s.renderLog := by
  cases h : s.animFrameId <;> simp [stopAnimating, h]

/-- stopAnimating lowers the flag. -/
theorem stopAnimating_isAnimating (s : ModuleState) :
    (stopAnimating s).isAnimating = false := by
  cases h : s.animFrameId <;> simp [stopAnimating, h]

/-- stopAnimating clears the stored frame handle. -/
theorem stopAnimating_animFrameId (s : ModuleState) :
    (stopAnimating s).animFrameId = none := by
  cases h : s.animFrameId <;> simp [stopAnimating, h]

/-- A frame fired while the flag is down changes no icon and renders
nothing, whether or not the id was still pending. -/
theorem fireFrame_stopped (u : ℚ) (g : Nat) (s : ModuleState) (h : s.isAnimating = false) :
    (fireFrame u g s).renderLog = s.renderLog ∧ (fireFrame u g s).icons = s.icons := by
  rw [fireFrame]
  split
  · rw [animateStep_not u { s with pendingFrames := s.pendingFrames.erase g } h]
    exact ⟨rfl, rfl⟩
  · exact ⟨rfl, rfl⟩

/-- startAnimating on a running state is the identity. -/
theorem startAnimating_noop (t : ℚ) (s : ModuleState) (h : s.isAnimating = true) :
    startAnimating t s = s := by
  rw [startAnimating, if_pos h]

/-- C4, amended: a visibility entry while already animating is a no-op
(no duplicate loop); from a stopped state it raises the flag, triggers
model loading, and leaves exactly one pending frame callback. A
visibility exit lowers the flag, cancels the pending frame callback and
leaves every icon (hence every modelLoaded flag and manualRotation
value) untouched, and no frame fired while hidden renders, blits or
changes any icon. Re-entering preserves every modelLoaded flag; it does
not preserve manualRotation in general, because the restarted frame
immediately overwrites it for loaded non-dragging icons (see the
counterexample). -/
theorem C4_theorem (t : ℚ) (s : ModuleState) :
    (s.isAnimating = true → visibilityEvent t true s = s) ∧
    (s.isAnimating = false →
      (visibilityEvent t true s).modelsRequested = true ∧
      (visibilityEvent t true s).isAnimating = true ∧
      (s.pendingFrames = [] → (visibilityEvent t true s).pendingFrames.length = 1)) ∧
    ((visibilityEvent t false s).icons = s.icons ∧
     (visibilityEvent t false s).isAnimating = false ∧
     (visibilityEvent t false s).animFrameId = none) ∧
    (∀ fid : Nat, s.animFrameId = some fid → s.pendingFrames = [fid] →
      (visibilityEvent t false s).pendingFrames = []) ∧
    (∀ (u : ℚ) (g : Nat),
      (fireFrame u g (visibilityEvent t false s)).renderLog =
        (visibilityEvent t false s).renderLog ∧
      (fireFrame u g (visibilityEvent t false s)).icons = s.icons) ∧
    (visibilityEvent t true s).icons.map Icon.modelLoaded =
      s.icons.map Icon.modelLoaded := by
  have hvt : visibilityEvent t true s = startAnimating t s := rfl
  have hvf : visibilityEvent t false s = stopAnimating s := rfl
  refine ⟨?_, ?_, ?_, ?_, ?_, ?_⟩
  · intro h
    rw [hvt, startAnimating_noop t s h]
  · intro h
    rw [hvt, startAnimating, if_neg (by rw [h]; simp)]
    refine ⟨?_, ?_, ?_⟩
    · rw [animateStep_modelsRequested]
      exact loadModels_flag _
    · rw [animateStep_isAnimating, loadModels_isAnimating]
    · intro hp
      rw [animateStep_pendingFrames _ _ (by rw [loadModels_isAnimating])]
      rw [loadModels_pendingFrames]
      show (s.pendingFrames ++ _).length = 1
      rw [hp]
      rfl
  · exact ⟨by rw [hvf, stopAnimating_icons],
      by rw [hvf, stopAnimating_isAnimating],
      by rw [hvf, stopAnimating_animFrameId]⟩
  · intro fid h1 h2
    rw [hvf]
    have hstop : stopAnimating s =
        { s with
          isAnimating := false,
          pendingFrames := s.pendingFrames.erase fid,
          animFrameId := none } := by
      simp [stopAnimating, h1]
    rw [hstop]
    show s.pendingFrames.erase fid = []
    rw [h2]
    simp
  · intro u g
    have := fireFrame_stopped u g (stopAnimating s) (stopAnimating_isAnimating s)
    rw [hvf]
    exact ⟨this.1, by rw [this.2, stopAnimating_icons]⟩
  · rw [hvt, startAnimating]
    split
    · rfl
    · rw [animateStep_modelLoadedMap]
      rw [loadModels_icons]

/-- A concrete running module state: one loaded icon auto-rotating with
manualRotation 0, the loop running with frame 0 pending. -/
def visState : ModuleState :=
  { pixelRatioVal := 2,
    icons := [testIcon],
    sharedRenderer := some ⟨80, 80, 2, true, true⟩,
    rendererConstructions := 1,
    modelsRequested := true,
    loadRequests := ["icon.glb"],
    isAnimating := true,
    animFrameId := some 0,
    nextFrameId := 1,
    pendingFrames := [0],
    renderLog := [],
    windowListeners := testIcon.windowListeners,
    observerConnected := true }

/-- C4, counterexample: manualRotation is not left unchanged across a
hide/show cycle. On the concrete running state the loaded non-dragging
icon has manualRotation 0; hiding preserves it, but the show at time 100
immediately runs a frame that overwrites it with 100 + 0 * 0.5 = 100. -/
theorem C4_counterexample :
    visState.icons.map Icon.manualRotation = [0] ∧
    (visibilityEvent 100 true (visibilityEvent 100 false visState)).icons.map
        Icon.manualRotation = [100] ∧
    ¬ (visibilityEvent 100 true (visibilityEvent 100 false visState)).icons.map
        Icon.manualRotation = visState.icons.map Icon.manualRotation := by
  have h2 : (visibilityEvent 100 true (visibilityEvent 100 false visState)).icons.map
      Icon.manualRotation = [100] := by
    norm_num [visibilityEvent, startAnimating, stopAnimating, animateStep, scheduleFrame,
      getSharedRenderer, loadModels, frameIcon, visState, testIcon]
  have h1 : visState.icons.map Icon.manualRotation = [0] := rfl
  refine ⟨h1, h2, ?_⟩
  rw [h2, h1]
  norm_num

/-- C4 witness: on the concrete running state, a second visibility entry
is a no-op, while a visibility exit keeps the icon list and cancels the
pending frame. -/
theorem C4_witness :
    visState.isAnimating = true ∧
    visibilityEvent 100 true visState = visState ∧
    (visibilityEvent 100 false visState).icons = visState.icons ∧
    (visibilityEvent 100 false visState).pendingFrames = [] := by
  obtain ⟨h1, -, h3, h4, -, -⟩ := C4_theorem 100 visState
  exact ⟨rfl, h1 rfl, h3.1, h4 0 rfl rfl⟩

/-- stopAnimating never touches the page-level listeners. -/
theorem stopAnimating_windowListeners (s : ModuleState) :
    (stopAnimating s).windowListeners = s.windowListeners := by
  cases h : s.animFrameId <;> simp [stopAnimating, h]

/-- stopAnimating never touches the shared renderer. -/
theorem stopAnimating_sharedRenderer (s : ModuleState) :
    (stopAnimating s).sharedRenderer = s.sharedRenderer := by
  cases h : s.animFrameId <;> simp [stopAnimating, h]

/-- Erasing, in order, every element of a list from the front of that
list leaves exactly the rest. -/
theorem foldl_erase_self {α : Type} [BEq α] [LawfulBEq α] :
    ∀ (l r : List α), l.foldl (fun a x => a.erase x) (l ++ r) = r := by
  intro l
  induction l with
  | nil => intro r; rfl
  | cons x l ih =>
    intro r
    rw [List.cons_append, List.foldl_cons, List.erase_cons_head]
    exact ih r

/-- removeEventListener, applied per icon to each stashed handler,
empties a listener list that consists exactly of those handlers. -/
theorem foldl_icons_erase :
    ∀ (icons : List Icon) (r : List (String × Nat)),
      icons.foldl
        (fun (acc : List (String × Nat)) (icon : Icon) =>
          icon.windowListeners.foldl (fun a w => a.erase w) acc)
        ((icons.map Icon.windowListeners).flatten ++ r) = r := by
  intro icons
  induction icons with
  | nil => intro r; rfl
  | cons ic icons ih =>
    intro r
    rw [List.map_cons, List.flatten_cons, List.append_assoc, List.foldl_cons]
    rw [foldl_erase_self ic.windowListeners
      ((icons.map Icon.windowListeners).flatten ++ r)]
    exact ih r

/-- C8: dispose stops the animation loop, detaches the observer, removes
every page-level listener the module registered (leaving zero when those
were exactly the registered ones), disposes the shared renderer, and
marks every icon with its resources disposed and its canvas removed from
the page. -/
theorem C8_theorem (s : ModuleState)
    (h : s.windowListeners = (s.icons.map Icon.windowListeners).flatten) :
    (dispose s).isAnimating = false ∧
    (dispose s).observerConnected = false ∧
    (dispose s).windowListeners = [] ∧
    (dispose s).sharedRenderer = none ∧
    (dispose s).icons =
      s.icons.map (fun ic => { ic with resourcesDisposed := true, canvasAttached := false }) ∧
    (∀ ic ∈ (dispose s).icons, ic.resourcesDisposed = true ∧ ic.canvasAttached = false) := by
  have hicons : (dispose s).icons =
      s.icons.map (fun ic => { ic with resourcesDisposed := true, canvasAttached := false }) := by
    simp only [dispose]
    split
    · rw [stopAnimating_icons]
    · rw [stopAnimating_icons]
  refine ⟨?_, ?_, ?_, ?_, hicons, ?_⟩
  · simp only [dispose]
    split
    · exact stopAnimating_isAnimating s
    · exact stopAnimating_isAnimating s
  · simp only [dispose]
    split
    · rfl
    · rfl
  · simp only [dispose]
    have hfold := foldl_icons_erase s.icons []
    rw [List.append_nil] at hfold
    split
    · rw [stopAnimating_icons, stopAnimating_windowListeners, h]
      exact hfold
    · rw [stopAnimating_icons, stopAnimating_windowListeners, h]
      exact hfold
  · simp only [dispose]
    split
    · rfl
    · rename_i hnone
      rw [stopAnimating_sharedRenderer]
      rw [show (stopAnimating s).sharedRenderer = s.sharedRenderer from
        stopAnimating_sharedRenderer s] at hnone
      simpa using hnone
  · intro ic hic
    rw [hicons] at hic
    obtain ⟨ic0, -, rfl⟩ := List.mem_map.mp hic
    exact ⟨rfl, rfl⟩

/-- C8 witness: disposing the concrete running state leaves zero
page-level listeners, no observer and no renderer. -/
theorem C8_witness :
    (dispose visState).windowListeners = [] ∧
    (dispose visState).observerConnected = false ∧
    (dispose visState).sharedRenderer = none ∧
    (dispose visState).isAnimating = false :=
  ⟨(C8_theorem visState rfl).2.2.1, (C8_theorem visState rfl).2.1,
   (C8_theorem visState rfl).2.2.2.1, (C8_theorem visState rfl).1⟩

/-- A nonnegative factor distributes over the three-way maximum. -/
theorem mul_maxDim3 (k : ℚ) (v : Vec3) (hk : 0 ≤ k) :
    max (k * v.x) (max (k * v.y) (k * v.z)) = k * maxDim3 v := by
  rw [maxDim3, mul_max_of_nonneg _ _ hk, mul_max_of_nonneg _ _ hk]

/-- C5: on a successful load of a fresh model (identity transform, as a
gltf scene root has, and a nondegenerate bounding box), the callback
scales the model uniformly by 1.8 / maxDim, which makes the largest
dimension of the recomputed bounding box exactly 1.8, translates the
model so the center of the post-scale bounding box is the origin, wraps
it in a pivot node (yaw 0) that is added to the icon scene, and sets
modelLoaded. -/
theorem C5_theorem (icon : Icon) (m : Model)
    (hscale : m.scale = 1) (hpos : m.position = ⟨0, 0, 0⟩)
    (hdim : 0 < maxDim3 m.worldBox.size) :
    (onGltfLoad icon m).pivot = some ⟨0, loadedModel m⟩ ∧
    (loadedModel m).scale = 18 / 10 / maxDim3 m.worldBox.size ∧
    maxDim3 (loadedModel m).worldBox.size = 18 / 10 ∧
    (loadedModel m).worldBox.center = ⟨0, 0, 0⟩ ∧
    (onGltfLoad icon m).pivotInScene = true ∧
    (onGltfLoad icon m).modelLoaded = true := by
  have hfit : 0 ≤ fitScale m := le_of_lt (div_pos (by norm_num) hdim)
  have hx : (loadedModel m).worldBox.size.x = fitScale m * m.worldBox.size.x := by
    simp only [loadedModel, Model.worldBox, Box3.size, Box3.center, hscale, hpos]
    ring
  have hy : (loadedModel m).worldBox.size.y = fitScale m * m.worldBox.size.y := by
    simp only [loadedModel, Model.worldBox, Box3.size, Box3.center, hscale, hpos]
    ring
  have hz : (loadedModel m).worldBox.size.z = fitScale m * m.worldBox.size.z := by
    simp only [loadedModel, Model.worldBox, Box3.size, Box3.center, hscale, hpos]
    ring
  refine ⟨rfl, rfl, ?_, ?_, rfl, rfl⟩
  · rw [maxDim3, hx, hy, hz, mul_maxDim3 _ _ hfit, fitScale,
      div_mul_cancel₀ _ (ne_of_gt hdim)]
  · simp only [loadedModel, Model.worldBox, Box3.center, hscale, hpos]
    rw [Vec3.mk.injEq]
    refine ⟨by ring, by ring, by ring⟩

/-- A concrete freshly loaded model: unit transform, bounding box from
the origin to (1, 2, 4), so maxDim is 4 and the fit scale is 0.45. -/
def testModel : Model :=
  { baseBox := ⟨⟨0, 0, 0⟩, ⟨1, 2, 4⟩⟩, scale := 1, position := ⟨0, 0, 0⟩ }

/-- C5 witness: loading the concrete model normalizes it to largest
dimension 1.8 centered at the origin and marks the icon loaded. -/
theorem C5_witness :
    testModel.scale = 1 ∧
    0 < maxDim3 testModel.worldBox.size ∧
    maxDim3 (loadedModel testModel).worldBox.size = 18 / 10 ∧
    (loadedModel testModel).worldBox.center = ⟨0, 0, 0⟩ ∧
    (onGltfLoad unloadedIcon testModel).pivot = some ⟨0, loadedModel testModel⟩ ∧
    (onGltfLoad unloadedIcon testModel).modelLoaded = true := by
  have hdim : 0 < maxDim3 testModel.worldBox.size := by
    norm_num [maxDim3, Model.worldBox, Box3.size, testModel, lt_max_iff]
  have h := C5_theorem unloadedIcon testModel rfl rfl hdim
  exact ⟨rfl, hdim, h.2.2.1, h.2.2.2.1, h.1, h.2.2.2.2.2⟩

end SocialIcons
